import Mathlib

/-!
Verification of the resilient JSON-RPC invocation core from this repository.

The development shallowly embeds the TypeScript sources:
  src/unnamed/part_000          (api-utils: handleError, apiRequestWithTimeout,
                                 validateApiResponse, retryApiRequest)
  src/utils/api-errors.ts       (error classes and the ErrorType enumeration)
  src/utils/rpc-factory.ts      (RpcFactory.createRequest)
  src/clients/rpc-api-client.ts (RpcAPIClient, the four fetch operations)
  src/builders/rpc-test-scenario-builder.ts (RpcTestScenarioBuilder)

Asynchronous actions are modelled as timed, determinised runs: an action that
may behave differently on each invocation becomes a function from the attempt
index to a pair of a duration in milliseconds and a result.  JavaScript values
flowing through the validator are modelled by the JsVal type, which carries
exactly the distinctions the code observes (undefined, null, string content,
truthiness).  Thrown JavaScript errors are modelled by JsError: either an
Error instance carrying a name and a message, or a thrown non-Error value.
-/

deriving instance DecidableEq for Except

namespace MAssign

/-- A JavaScript value as observed by the validator: undefined, null, or a
string.  The code only ever branches on truthiness, strict null comparison,
and regular-expression tests over the string coercion of such values. -/
inductive JsVal where
  | undefined
  | null
  | str (s : String)
deriving DecidableEq

/-- JavaScript truthiness for the modelled values: undefined and null are
falsy and a string is truthy exactly when it is non-empty. -/
def jsTruthy : JsVal → Bool
  | JsVal.str s => decide (s ≠ "")
  | _ => false

/-- JavaScript string coercion, as applied by RegExp.test to its argument. -/
def jsToString : JsVal → String
  | JsVal.undefined => "undefined"
  | JsVal.null => "null"
  | JsVal.str s => s

/-- One character of the class [a-fA-F0-9] used by every pattern in
validateApiResponse (src/unnamed/part_000). -/
def isHexCharJs (c : Char) : Bool :=
  ('0' ≤ c && c ≤ '9') || ('a' ≤ c && c ≤ 'f') || ('A' ≤ c && c ≤ 'F')

/-- Whole-string test for the pattern anchored-0x-hex-plus
(one or more hex characters after the 0x), from src/unnamed/part_000. -/
def reHexAll (s : String) : Bool :=
  match s.toList with
  | '0' :: 'x' :: rest => !rest.isEmpty && rest.all isHexCharJs
  | _ => false

/-- Whole-string test for the pattern anchored-0x-hex with exactly n hex
characters after the 0x (n is 64 for hashes and 40 for addresses). -/
def reHexLen (n : Nat) (s : String) : Bool :=
  match s.toList with
  | '0' :: 'x' :: rest => rest.length == n && rest.all isHexCharJs
  | _ => false

/-- A thrown JavaScript error: either an Error instance with a name and a
message, or a thrown value that is not an Error instance. -/
inductive JsError where
  | mk (name : String) (message : String)
  | nonError
deriving DecidableEq

/-- The constructor name of the error class selected by handleError for a
given errorType string (src/unnamed/part_000 lines 23-32, switching over
the ErrorType values of src/utils/api-errors.ts). -/
def errorTypeName : String → String
  | "RPC" => "RPCError"
  | "WALLET_API" => "WalletAPIError"
  | "USER_API" => "UserAPIError"
  | _ => "GenericAPIError"

/-- handleError from src/unnamed/part_000 lines 16-33: extract the message of
the caught value when it is an Error instance (otherwise the literal
"Unknown error"), log the context message (the log is not modelled), and
throw a fresh error of the class selected by errorType carrying that
message.  The returned JsError is the thrown error. -/
def handleError (error : JsError) (_contextMessage errorType : String) : JsError :=
  match error with
  | JsError.mk _ m => JsError.mk (errorTypeName errorType) m
  | JsError.nonError => JsError.mk (errorTypeName errorType) "Unknown error"

/-- One determinised run of an asynchronous action: how long it takes to
settle, in milliseconds, and whether it resolves or rejects. -/
structure TimedResult (α : Type) where
  duration : Nat
  result : Except JsError α

/-- apiRequestWithTimeout from src/unnamed/part_000 lines 44-61: race the
action against a timer of timeout milliseconds.  If the action settles
strictly first its resolution is returned unchanged, while its rejection is
caught and re-thrown through handleError; if the timer fires first the
Error with message "API request timed out" is caught and re-thrown through
handleError the same way. -/
def apiRequestWithTimeout {α : Type} (action : TimedResult α) (timeout : Nat)
    (errorMessage errorType : String) : TimedResult α :=
  if action.duration < timeout then
    match action.result with
    | Except.ok v => ⟨action.duration, Except.ok v⟩
    | Except.error e => ⟨action.duration, Except.error (handleError e errorMessage errorType)⟩
  else
    ⟨timeout, Except.error (handleError (JsError.mk "Error" "API request timed out") errorMessage errorType)⟩

/-- The fields of a decoded response object that validateApiResponse reads,
together with the transactions array read by the transaction-hash stages.
A field holds JsVal.undefined when absent.  The transactions field is
Option-valued: none models an absent transactions property and some l a
JavaScript array of transaction entries. -/
structure Payload where
  error : Option String
  number : JsVal
  hash : JsVal
  transactionIndex : JsVal
  from_ : JsVal
  to_ : JsVal
  transactions : Option (List JsVal)
deriving DecidableEq

/-- The object literal with a number field and nothing else, as built by
RpcAPIClient.fetchBlockNumber for validation. -/
def payloadNumber (v : JsVal) : Payload :=
  ⟨none, v, JsVal.undefined, JsVal.undefined, JsVal.undefined, JsVal.undefined, none⟩

/-- The object literal with a hash field and nothing else, as built by
RpcAPIClient.fetchTransactionHash for validation. -/
def payloadHash (v : JsVal) : Payload :=
  ⟨none, JsVal.undefined, v, JsVal.undefined, JsVal.undefined, JsVal.undefined, none⟩

/-- validateApiResponse from src/unnamed/part_000 lines 70-135, with the
response argument modelled as none for a null or undefined response and
some r otherwise.  Each failing check throws through handleError, which
aborts the remaining checks; .ok () models a return without a throw.
The error field of a payload is truthy exactly when present (a populated
error object is truthy in JavaScript regardless of its contents). -/
def validateApiResponse (response : Option Payload) (errorMessage errorType : String) :
    Except JsError Unit := do
  match response with
  | none =>
    throw (handleError (JsError.mk "Error" "Response is null or undefined") errorMessage errorType)
  | some r =>
    match r.error with
    | some msg =>
      throw (handleError (JsError.mk "Error" ("RPC Error: " ++ msg)) errorMessage errorType)
    | none => do
      if jsTruthy r.number && jsTruthy r.hash then do
        if !(reHexAll (jsToString r.number)) then
          throw (handleError (JsError.mk "Error" "Invalid block number format") errorMessage errorType)
        if !(reHexLen 64 (jsToString r.hash)) then
          throw (handleError (JsError.mk "Error" "Invalid block hash format") errorMessage errorType)
      if jsTruthy r.transactionIndex && jsTruthy r.from_ && jsTruthy r.to_ then do
        if !(reHexLen 40 (jsToString r.from_)) then
          throw (handleError (JsError.mk "Error" "Invalid \"from\" address format") errorMessage errorType)
        if r.to_ ≠ JsVal.null ∧ !(reHexLen 40 (jsToString r.to_)) then
          throw (handleError (JsError.mk "Error" "Invalid \"to\" address format") errorMessage errorType)
        if !(reHexAll (jsToString r.transactionIndex)) then
          throw (handleError (JsError.mk "Error" "Invalid transaction index format") errorMessage errorType)
      if !(jsTruthy r.number) && !(jsTruthy r.hash) && !(jsTruthy r.transactionIndex) then
        throw (handleError (JsError.mk "Error" "Block or transaction response are invalid") errorMessage errorType)

/-- The error object carried by a decoded RPC response
(src/utils/rpc-factory.ts lines 3-8). -/
structure RpcErrObj where
  code : Int
  message : String
deriving DecidableEq

/-- The decoded body of a JSON-RPC response (src/utils/rpc-factory.ts
lines 3-8). -/
structure RpcResponse where
  jsonrpc : String
  id : Int
  result : Option JsVal
  error : Option RpcErrObj
deriving DecidableEq

/-- RpcFactory.createRequest from src/utils/rpc-factory.ts lines 22-48.  The
HTTP exchange is modelled by its outcome: an error when the axios layer
rejects, or the decoded body.  A decoded body with a populated error field
is turned into a thrown Error whose message interpolates the embedded
message; the catch block logs and re-throws the same error value. -/
def createRequest (http : Except JsError RpcResponse) : Except JsError RpcResponse :=
  match http with
  | Except.error e => Except.error e
  | Except.ok data =>
    match data.error with
    | some err => Except.error (JsError.mk "Error" ("RPC Error: " ++ err.message))
    | none => Except.ok data

/-- The outcome of a retried operation: how many times the action was
invoked, the total time spent awaiting it, and the final result. -/
structure OpResult (α : Type) where
  invocations : Nat
  duration : Nat
  result : Except JsError α

/-- The while loop of retryApiRequest (src/unnamed/part_000 lines 152-163),
with fuel standing for retries minus the current value of the attempts
counter and attempts the current counter value, which is also the index of
the determinised run the next invocation observes.  A successful attempt
returns immediately; the failure that raises the counter to retries is
passed to handleError; the fuel-zero case corresponds to the line after
the loop, which throws the Error "All retries failed" through handleError
(reachable from retryApiRequest only when retries is zero). -/
def retryFrom {α : Type} (action : Nat → TimedResult α) (errorMessage errorType : String) :
    Nat → Nat → OpResult α
  | 0, _ =>
    ⟨0, 0, Except.error (handleError (JsError.mk "Error" "All retries failed") errorMessage errorType)⟩
  | fuel + 1, attempts =>
    match (action attempts).result with
    | Except.ok v => ⟨1, (action attempts).duration, Except.ok v⟩
    | Except.error e =>
      if fuel = 0 then
        ⟨1, (action attempts).duration, Except.error (handleError e errorMessage errorType)⟩
      else
        let rest := retryFrom action errorMessage errorType fuel (attempts + 1)
        ⟨rest.invocations + 1, (action attempts).duration + rest.duration, rest.result⟩

/-- retryApiRequest from src/unnamed/part_000 lines 146-164: run the loop
with the attempts counter starting at zero. -/
def retryApiRequest {α : Type} (action : Nat → TimedResult α) (retries : Nat)
    (errorMessage errorType : String) : OpResult α :=
  retryFrom action errorMessage errorType retries 0

/-- RpcAPIClient.fetchBlockNumber from src/clients/rpc-api-client.ts lines
24-44: the retry executor applied around the timeout executor applied
around the transport call, with a retry budget of 2, followed by
validation of the object literal with the result as its number field.
transport models the determinised runs of
RpcFactory.callRpcMethod(nodeUrl, eth_blockNumber) per attempt, and
timeout stands for the DEFAULT_TIMEOUT configuration value. -/
def fetchBlockNumber (transport : Nat → TimedResult JsVal) (timeout : Nat)
    (nodeUrl : String) : OpResult JsVal :=
  let r := retryApiRequest
    (fun attempt =>
      apiRequestWithTimeout (transport attempt) timeout
        ("Failed to fetch block number for - " ++ nodeUrl) "RPC")
    2 "Failed to fetch block number after retries" "RPC"
  match r.result with
  | Except.error e => ⟨r.invocations, r.duration, Except.error e⟩
  | Except.ok blockNumber =>
    match validateApiResponse (some (payloadNumber blockNumber))
        "Failed to validate block number response" "RPC" with
    | Except.error e => ⟨r.invocations, r.duration, Except.error e⟩
    | Except.ok _ => ⟨r.invocations, r.duration, Except.ok blockNumber⟩

/-- The composition stated by the specification for the client operations:
TimeoutExecutor(RetryExecutor(Transport.send), retries=2) followed by the
validator, so that one timer bounds the whole retry loop.  Modelled from
the words of the specification for comparison with fetchBlockNumber,
which is translated from the source. -/
def fetchBlockNumberSpecOrder (transport : Nat → TimedResult JsVal) (timeout : Nat)
    (nodeUrl : String) : OpResult JsVal :=
  let r := retryApiRequest transport 2 "Failed to fetch block number after retries" "RPC"
  let t := apiRequestWithTimeout (⟨r.duration, r.result⟩ : TimedResult JsVal) timeout
    ("Failed to fetch block number for - " ++ nodeUrl) "RPC"
  match t.result with
  | Except.error e => ⟨r.invocations, t.duration, Except.error e⟩
  | Except.ok blockNumber =>
    match validateApiResponse (some (payloadNumber blockNumber))
        "Failed to validate block number response" "RPC" with
    | Except.error e => ⟨r.invocations, t.duration, Except.error e⟩
    | Except.ok _ => ⟨r.invocations, t.duration, Except.ok blockNumber⟩

/-- RpcAPIClient.fetchBlockDetails from src/clients/rpc-api-client.ts lines
54-78: retry around timeout around the transport call with a budget of 2,
followed by validation of the returned block details themselves.
transport models the determinised runs of
RpcFactory.callRpcMethod(nodeUrl, eth_getBlockByNumber, [blockNumber,
false]) per attempt; a none value is an undefined result field. -/
def fetchBlockDetails (transport : Nat → TimedResult (Option Payload)) (timeout : Nat)
    (blockNumber : String) : OpResult (Option Payload) :=
  let r := retryApiRequest
    (fun attempt =>
      apiRequestWithTimeout (transport attempt) timeout
        ("Failed to fetch block details for block number - " ++ blockNumber) "RPC")
    2 ("Failed to fetch block details for block number - " ++ blockNumber ++ " after retries") "RPC"
  match r.result with
  | Except.error e => ⟨r.invocations, r.duration, Except.error e⟩
  | Except.ok blockDetails =>
    match validateApiResponse blockDetails
        "Failed to validate block details response" "RPC" with
    | Except.error e => ⟨r.invocations, r.duration, Except.error e⟩
    | Except.ok _ => ⟨r.invocations, r.duration, Except.ok blockDetails⟩

/-- RpcAPIClient.fetchTransactionHash from src/clients/rpc-api-client.ts
lines 88-117: fail immediately when the block details are falsy, have no
transactions field, or have an empty transactions array; otherwise apply
retry around timeout around the immediately-resolving access of
transactions[0] (no transport call is involved), then validate the object
literal with that hash as its hash field. -/
def clientFetchTransactionHash (blockDetails : Option Payload) (timeout : Nat) :
    OpResult JsVal :=
  match blockDetails with
  | none => ⟨0, 0, Except.error (JsError.mk "Error" "Block details or transactions are not available")⟩
  | some bd =>
    match bd.transactions with
    | none => ⟨0, 0, Except.error (JsError.mk "Error" "Block details or transactions are not available")⟩
    | some txs =>
      if txs.length == 0 then
        ⟨0, 0, Except.error (JsError.mk "Error" "Block details or transactions are not available")⟩
      else
        let r := retryApiRequest
          (fun _ =>
            apiRequestWithTimeout (⟨0, Except.ok (txs.headD JsVal.undefined)⟩ : TimedResult JsVal)
              timeout "Failed to fetch transaction hash" "RPC")
          2 "Failed to fetch transaction hash after retries" "RPC"
        match r.result with
        | Except.error e => ⟨r.invocations, r.duration, Except.error e⟩
        | Except.ok transactionHash =>
          match validateApiResponse (some (payloadHash transactionHash))
              "Failed to validate transaction hash" "RPC" with
          | Except.error e => ⟨r.invocations, r.duration, Except.error e⟩
          | Except.ok _ => ⟨r.invocations, r.duration, Except.ok transactionHash⟩

/-- RpcAPIClient.fetchTransactionDetails from src/clients/rpc-api-client.ts
lines 127-150: retry around timeout around the transport call with a
budget of 2, followed by validation of the returned transaction details.
transport models the determinised runs of
RpcFactory.callRpcMethod(nodeUrl, eth_getTransactionByHash,
[transactionHash]) per attempt. -/
def fetchTransactionDetails (transport : Nat → TimedResult (Option Payload)) (timeout : Nat)
    (transactionHash : String) : OpResult (Option Payload) :=
  let r := retryApiRequest
    (fun attempt =>
      apiRequestWithTimeout (transport attempt) timeout
        ("Failed to fetch transaction details for transaction hash - " ++ transactionHash) "RPC")
    2 ("Failed to fetch transaction details for transaction hash after retries " ++ transactionHash) "RPC"
  match r.result with
  | Except.error e => ⟨r.invocations, r.duration, Except.error e⟩
  | Except.ok transactionDetails =>
    match validateApiResponse transactionDetails
        "Failed to validate transaction details response" "RPC" with
    | Except.error e => ⟨r.invocations, r.duration, Except.error e⟩
    | Except.ok _ => ⟨r.invocations, r.duration, Except.ok transactionDetails⟩

/-- The MAX_RETRIES constant of RpcTestScenarioBuilder.fetchTransactionHash
(src/builders/rpc-test-scenario-builder.ts line 47). -/
def MAX_RETRIES : Nat := 3

/-- The RETRY_DELAY constant, in milliseconds, of
RpcTestScenarioBuilder.fetchTransactionHash
(src/builders/rpc-test-scenario-builder.ts line 48). -/
def RETRY_DELAY : Nat := 2000

/-- The loop condition of RpcTestScenarioBuilder.fetchTransactionHash
(src/builders/rpc-test-scenario-builder.ts line 50): the stored block
details are falsy, or their transactions array has a falsy length.  The
theorems only instantiate views whose truthy block details carry a
transactions array (an absent transactions property under a truthy object
would throw a TypeError on the length access, which is not modelled). -/
def blockDetailsHasNoTx : Option Payload → Bool
  | none => true
  | some bd => (bd.transactions.getD []).length == 0

/-- The polling loop of RpcTestScenarioBuilder.fetchTransactionHash
(src/builders/rpc-test-scenario-builder.ts lines 49-59).  The loop rereads
this.blockDetails on every check; view gives the value observed at the
check following a given number of completed delays (mutation between the
awaited delays is what the polling is for).  The first component counts
the completed RETRY_DELAY sleeps; fuel is spent only on those sleeps, and
calls start with fuel maxRetries + 1, which the loop can never exhaust
(the fuel-zero branch repeats the maximum-retries throw and is
unreachable from builderFetchTransactionHash). -/
def pollFrom (view : Nat → Option Payload) (maxRetries : Nat) :
    Nat → Nat → Nat × Except JsError (Option Payload)
  | 0, _ =>
    (0, Except.error (JsError.mk "Error" "Block details or transactions are not available after maximum retries"))
  | fuel + 1, retries =>
    if blockDetailsHasNoTx (view retries) then
      if maxRetries ≤ retries then
        (0, Except.error (JsError.mk "Error" "Block details or transactions are not available after maximum retries"))
      else
        let p := pollFrom view maxRetries fuel (retries + 1)
        (p.1 + 1, p.2)
    else
      (0, Except.ok (view retries))

/-- RpcTestScenarioBuilder.fetchTransactionHash from
src/builders/rpc-test-scenario-builder.ts lines 46-65: poll the stored
block details until they carry a non-empty transactions array, sleeping
RETRY_DELAY between checks and giving up after MAX_RETRIES sleeps, then
delegate to RpcAPIClient.fetchTransactionHash on the observed details.
Returns the number of completed sleeps and the final outcome. -/
def builderFetchTransactionHash (view : Nat → Option Payload) (timeout : Nat) :
    Nat × Except JsError JsVal :=
  let p := pollFrom view MAX_RETRIES (MAX_RETRIES + 1) 0
  match p.2 with
  | Except.error e => (p.1, Except.error e)
  | Except.ok bd => (p.1, (clientFetchTransactionHash bd timeout).result)

/-- RpcTestScenarioBuilder.fetchBlockDetails from
src/builders/rpc-test-scenario-builder.ts lines 31-38: throw the Error
"Block number is not available" when the stored block number is falsy,
and otherwise delegate to RpcAPIClient.fetchBlockDetails.  The transport
argument is consumed only by the delegated call, so a result that is
independent of it involves no RPC traffic. -/
def builderFetchBlockDetails (blockNumber : JsVal)
    (transport : Nat → TimedResult (Option Payload)) (timeout : Nat) :
    Except JsError (Option Payload) :=
  if !(jsTruthy blockNumber) then
    Except.error (JsError.mk "Error" "Block number is not available")
  else
    (fetchBlockDetails transport timeout (jsToString blockNumber)).result

/-- RpcTestScenarioBuilder.fetchTransactionDetails from
src/builders/rpc-test-scenario-builder.ts lines 72-79: throw the Error
"Transaction hash is not available" when the stored transaction hash is
falsy, and otherwise delegate to RpcAPIClient.fetchTransactionDetails. -/
def builderFetchTransactionDetails (transactionHash : JsVal)
    (transport : Nat → TimedResult (Option Payload)) (timeout : Nat) :
    Except JsError (Option Payload) :=
  if !(jsTruthy transactionHash) then
    Except.error (JsError.mk "Error" "Transaction hash is not available")
  else
    (fetchTransactionDetails transport timeout (jsToString transactionHash)).result

/-- A block-shaped response object carrying a number and a hash field and
nothing else, as quantified over by the block-format properties. -/
def blockPayload (number hash : JsVal) : Payload :=
  ⟨none, number, hash, JsVal.undefined, JsVal.undefined, JsVal.undefined, none⟩

/-- A transaction-shaped response object carrying a transactionIndex, a from
and a to field and nothing else, as quantified over by the
transaction-format properties. -/
def txPayload (transactionIndex fromAddr toAddr : JsVal) : Payload :=
  ⟨none, JsVal.undefined, JsVal.undefined, transactionIndex, fromAddr, toAddr, none⟩

theorem jsTruthy_undefined : jsTruthy JsVal.undefined = false := rfl

theorem jsTruthy_null : jsTruthy JsVal.null = false := rfl

theorem jsTruthy_str {s : String} (h : s ≠ "") : jsTruthy (JsVal.str s) = true := by
  simp [jsTruthy, h]

theorem truthy_of_reHexAll {s : String} (h : reHexAll s = true) :
    jsTruthy (JsVal.str s) = true := by
  have hne : s ≠ "" := by
    intro h0
    subst h0
    simp [reHexAll] at h
  simp [jsTruthy, hne]

theorem truthy_of_reHexLen {n : Nat} {s : String} (h : reHexLen n s = true) :
    jsTruthy (JsVal.str s) = true := by
  have hne : s ≠ "" := by
    intro h0
    subst h0
    simp [reHexLen] at h
  simp [jsTruthy, hne]

/-- The validator accepts the object literal with any truthy number field:
no format rule applies because the hash field is absent, and the presence
of the number defeats the unrecognised-shape rule. -/
theorem validate_payloadNumber_ok (v : JsVal) (em et : String) (hv : jsTruthy v = true) :
    validateApiResponse (some (payloadNumber v)) em et = Except.ok () := by
  simp [validateApiResponse, payloadNumber, hv, jsTruthy_undefined]
  rfl

/-- The validator accepts the object literal with any truthy hash field:
no format rule applies because the number field is absent, and the
presence of the hash defeats the unrecognised-shape rule. -/
theorem validate_payloadHash_ok (v : JsVal) (em et : String) (hv : jsTruthy v = true) :
    validateApiResponse (some (payloadHash v)) em et = Except.ok () := by
  simp [validateApiResponse, payloadHash, hv, jsTruthy_undefined]
  rfl

/-- C3 (amended): when the action settles with an error before the timer,
apiRequestWithTimeout propagates a failure within the same duration, but
the error is re-thrown through handleError: a fresh error of the
caller-supplied category whose message equals the original message when
the thrown value was an Error instance.  It is never converted into the
timeout error. -/
theorem c3_error_rewrapped_with_same_message {α : Type} (action : TimedResult α)
    (e : JsError) (timeout : Nat) (errorMessage errorType : String)
    (hd : action.duration < timeout) (he : action.result = Except.error e) :
    apiRequestWithTimeout action timeout errorMessage errorType =
      ⟨action.duration, Except.error (handleError e errorMessage errorType)⟩ ∧
    ∀ nm msg, e = JsError.mk nm msg →
      handleError e errorMessage errorType = JsError.mk (errorTypeName errorType) msg := by
  constructor
  · simp [apiRequestWithTimeout, hd, he]
  · intro nm msg hmk
    subst hmk
    rfl

/-- C3 witness: a concrete failing action under the timer is re-thrown as the
corresponding category error carrying the original message. -/
theorem c3_witness :
    apiRequestWithTimeout (⟨3, Except.error (JsError.mk "TypeError" "x failed")⟩ : TimedResult JsVal)
        7 "Failed to execute API request" "USER_API" =
      ⟨3, Except.error (JsError.mk "UserAPIError" "x failed")⟩ :=
  (c3_error_rewrapped_with_same_message
    (⟨3, Except.error (JsError.mk "TypeError" "x failed")⟩ : TimedResult JsVal)
    (JsError.mk "TypeError" "x failed") 7 "Failed to execute API request" "USER_API"
    (by decide) rfl).1

/-- C3 counterexample: the claim says the propagated error is the very same
error value, not re-wrapped; on a concrete action failing with the Error
named "Error" and message "boom" before a 10 ms timer, the layer instead
surfaces a fresh RPCError with that message, a different error value. -/
theorem c3_counterexample :
    apiRequestWithTimeout (⟨0, Except.error (JsError.mk "Error" "boom")⟩ : TimedResult JsVal) 10
        "Failed to execute API request" "RPC" =
      ⟨0, Except.error (JsError.mk "RPCError" "boom")⟩ ∧
    JsError.mk "RPCError" "boom" ≠ JsError.mk "Error" "boom" :=
  ⟨rfl, by decide⟩

/-- C8: createRequest fails with the Error whose message is the
interpolation "RPC Error: " followed by the embedded message whenever the
decoded body carries a populated error field, and returns the decoded
response (result field included) when the error field is absent. -/
theorem c8_createRequest_error_field (data : RpcResponse) :
    (∀ err, data.error = some err →
      createRequest (Except.ok data) =
        Except.error (JsError.mk "Error" ("RPC Error: " ++ err.message))) ∧
    (data.error = none → createRequest (Except.ok data) = Except.ok data) := by
  constructor
  · intro err h
    simp [createRequest, h]
  · intro h
    simp [createRequest, h]

/-- C8 witness: both branches at concrete decoded bodies. -/
theorem c8_witness :
    createRequest (Except.ok ⟨"2.0", 1, none, some ⟨-32601, "method not found"⟩⟩) =
      Except.error (JsError.mk "Error" ("RPC Error: " ++ "method not found")) ∧
    createRequest (Except.ok ⟨"2.0", 1, some (JsVal.str "0x10"), none⟩) =
      Except.ok ⟨"2.0", 1, some (JsVal.str "0x10"), none⟩ :=
  ⟨(c8_createRequest_error_field ⟨"2.0", 1, none, some ⟨-32601, "method not found"⟩⟩).1
      ⟨-32601, "method not found"⟩ rfl,
   (c8_createRequest_error_field ⟨"2.0", 1, some (JsVal.str "0x10"), none⟩).2 rfl⟩

/-- C9: the stage preconditions of the scenario builder fail fast.  With a
falsy stored block number, fetchBlockDetails fails with the Error
"Block number is not available", and with a falsy stored transaction
hash, fetchTransactionDetails fails with the Error
"Transaction hash is not available" — in both cases uniformly in the
transport, so no RPC call influences the outcome. -/
theorem c9_builder_preconditions (blockNumber transactionHash : JsVal)
    (transport transportB : Nat → TimedResult (Option Payload)) (timeout timeoutB : Nat)
    (hbn : jsTruthy blockNumber = false) (hth : jsTruthy transactionHash = false) :
    builderFetchBlockDetails blockNumber transport timeout =
      Except.error (JsError.mk "Error" "Block number is not available") ∧
    builderFetchTransactionDetails transactionHash transportB timeoutB =
      Except.error (JsError.mk "Error" "Transaction hash is not available") := by
  constructor
  · simp [builderFetchBlockDetails, hbn]
  · simp [builderFetchTransactionDetails, hth]

/-- C9 witness: a fresh builder stores null in both fields; both stage
preconditions fire at a concrete transport. -/
theorem c9_witness :
    builderFetchBlockDetails JsVal.null
        (fun _ => (⟨1, Except.ok none⟩ : TimedResult (Option Payload))) 5 =
      Except.error (JsError.mk "Error" "Block number is not available") ∧
    builderFetchTransactionDetails JsVal.null
        (fun _ => (⟨1, Except.ok none⟩ : TimedResult (Option Payload))) 5 =
      Except.error (JsError.mk "Error" "Transaction hash is not available") :=
  c9_builder_preconditions JsVal.null JsVal.null
    (fun _ => (⟨1, Except.ok none⟩ : TimedResult (Option Payload)))
    (fun _ => (⟨1, Except.ok none⟩ : TimedResult (Option Payload))) 5 5 rfl rfl

/-- C4 (amended): the transaction-format rules run only when
transactionIndex, from and to are all truthy; a to field that is exactly
null is falsy, so it does not count as present and the whole
transaction-shaped branch is skipped (the payload then passes, its
transactionIndex alone defeating the unrecognised-shape rule).  When all
three are truthy strings the validator fails on a from not matching the
40-hex pattern, then on a to not matching it (the to value cannot be null
there), then on a transactionIndex not matching the hex pattern, and
succeeds when all three match. -/
theorem c4_transaction_rules (ti f t : String) (em et : String)
    (hti : ti ≠ "") (hf : f ≠ "") (ht : t ≠ "") :
    (reHexLen 40 f = false →
      validateApiResponse (some (txPayload (JsVal.str ti) (JsVal.str f) (JsVal.str t))) em et =
        Except.error (handleError (JsError.mk "Error" "Invalid \"from\" address format") em et)) ∧
    (reHexLen 40 f = true → reHexLen 40 t = false →
      validateApiResponse (some (txPayload (JsVal.str ti) (JsVal.str f) (JsVal.str t))) em et =
        Except.error (handleError (JsError.mk "Error" "Invalid \"to\" address format") em et)) ∧
    (reHexLen 40 f = true → reHexLen 40 t = true → reHexAll ti = false →
      validateApiResponse (some (txPayload (JsVal.str ti) (JsVal.str f) (JsVal.str t))) em et =
        Except.error (handleError (JsError.mk "Error" "Invalid transaction index format") em et)) ∧
    (reHexLen 40 f = true → reHexLen 40 t = true → reHexAll ti = true →
      validateApiResponse (some (txPayload (JsVal.str ti) (JsVal.str f) (JsVal.str t))) em et =
        Except.ok ()) ∧
    validateApiResponse (some (txPayload (JsVal.str ti) (JsVal.str f) JsVal.null)) em et =
      Except.ok () := by
  have htis := jsTruthy_str hti
  have hfs := jsTruthy_str hf
  have hts := jsTruthy_str ht
  refine ⟨?_, ?_, ?_, ?_, ?_⟩
  · intro h40f
    simp [validateApiResponse, txPayload, jsToString, jsTruthy_undefined, htis, hfs, hts, h40f]
    rfl
  · intro h40f h40t
    simp [validateApiResponse, txPayload, jsToString, jsTruthy_undefined, htis, hfs, hts, h40f, h40t]
    rfl
  · intro h40f h40t hati
    simp [validateApiResponse, txPayload, jsToString, jsTruthy_undefined, htis, hfs, hts, h40f,
      h40t, hati]
    rfl
  · intro h40f h40t hati
    simp [validateApiResponse, txPayload, jsToString, jsTruthy_undefined, htis, hfs, hts, h40f,
      h40t, hati]
    rfl
  · simp [validateApiResponse, txPayload, jsToString, jsTruthy_undefined, jsTruthy_null, htis, hfs]
    rfl

/-- C4 witness: the four truthy-guard branches at concrete strings. -/
theorem c4_witness :
    validateApiResponse (some (txPayload (JsVal.str "0x0") (JsVal.str "0xbad") (JsVal.str "0xcc")))
        "Invalid API response" "GENERIC_API" =
      Except.error (handleError (JsError.mk "Error" "Invalid \"from\" address format")
        "Invalid API response" "GENERIC_API") ∧
    validateApiResponse (some (txPayload (JsVal.str "0x0")
        (JsVal.str "0xbbbbbbbbbbbbbbbbbbbbbbbbbbbbbbbbbbbbbbbb")
        (JsVal.str "0xbbbbbbbbbbbbbbbbbbbbbbbbbbbbbbbbbbbbbbbb")))
        "Invalid API response" "GENERIC_API" = Except.ok () := by
  constructor
  · exact (c4_transaction_rules "0x0" "0xbad" "0xcc" "Invalid API response" "GENERIC_API"
      (by decide) (by decide) (by decide)).1 (by decide)
  · exact (c4_transaction_rules "0x0" "0xbbbbbbbbbbbbbbbbbbbbbbbbbbbbbbbbbbbbbbbb"
      "0xbbbbbbbbbbbbbbbbbbbbbbbbbbbbbbbbbbbbbbbb" "Invalid API response" "GENERIC_API"
      (by decide) (by decide) (by decide)).2.2.2.1 (by decide) (by decide) (by decide)

/-- C4 counterexample: the claim counts a to field that is exactly null as
present, and so requires validation to fail on this payload whose from
does not match the 40-hex pattern; the code instead skips the
transaction-format checks (the null to is falsy) and the validator
succeeds. -/
theorem c4_counterexample :
    reHexLen 40 "0xbad" = false ∧
    validateApiResponse (some (txPayload (JsVal.str "0x1") (JsVal.str "0xbad") JsVal.null))
        "Invalid API response" "GENERIC_API" = Except.ok () := by
  constructor
  · decide
  · decide

/-- C5 (amended): with a valid 64-hex hash present, a truthy number string
that does not match the hex pattern makes the validator fail with the
invalid-block-number error; an empty number string is falsy, skips the
block-format rules, and passes (the hash alone defeats the
unrecognised-shape rule).  Every pair in which number matches the hex
pattern and hash matches the 64-hex pattern validates successfully. -/
theorem c5_block_number_format (s h num : String) (em et : String) :
    (s ≠ "" → reHexAll s = false → reHexLen 64 h = true →
      validateApiResponse (some (blockPayload (JsVal.str s) (JsVal.str h))) em et =
        Except.error (handleError (JsError.mk "Error" "Invalid block number format") em et)) ∧
    (reHexAll num = true → reHexLen 64 h = true →
      validateApiResponse (some (blockPayload (JsVal.str num) (JsVal.str h))) em et =
        Except.ok ()) := by
  constructor
  · intro hs hra hrl
    have hss := jsTruthy_str hs
    have hhs := truthy_of_reHexLen hrl
    simp [validateApiResponse, blockPayload, jsToString, jsTruthy_undefined, hss, hhs, hra]
    rfl
  · intro hra hrl
    have hns := truthy_of_reHexAll hra
    have hhs := truthy_of_reHexLen hrl
    simp [validateApiResponse, blockPayload, jsToString, jsTruthy_undefined, hns, hhs, hra, hrl]
    rfl

/-- C5 witness: a truthy non-hex number fails and a valid pair passes, at
concrete strings. -/
theorem c5_witness :
    validateApiResponse (some (blockPayload (JsVal.str "12") (JsVal.str
        "0xaaaaaaaaaaaaaaaaaaaaaaaaaaaaaaaaaaaaaaaaaaaaaaaaaaaaaaaaaaaaaaaa")))
        "Invalid API response" "GENERIC_API" =
      Except.error (handleError (JsError.mk "Error" "Invalid block number format")
        "Invalid API response" "GENERIC_API") ∧
    validateApiResponse (some (blockPayload (JsVal.str "0x10") (JsVal.str
        "0xaaaaaaaaaaaaaaaaaaaaaaaaaaaaaaaaaaaaaaaaaaaaaaaaaaaaaaaaaaaaaaaa")))
        "Invalid API response" "GENERIC_API" = Except.ok () := by
  constructor
  · exact (c5_block_number_format "12"
      "0xaaaaaaaaaaaaaaaaaaaaaaaaaaaaaaaaaaaaaaaaaaaaaaaaaaaaaaaaaaaaaaaa" "0x10"
      "Invalid API response" "GENERIC_API").1 (by decide) (by decide) (by decide)
  · exact (c5_block_number_format "12"
      "0xaaaaaaaaaaaaaaaaaaaaaaaaaaaaaaaaaaaaaaaaaaaaaaaaaaaaaaaaaaaaaaaa" "0x10"
      "Invalid API response" "GENERIC_API").2 (by decide) (by decide)

/-- C5 counterexample: the empty string does not match the hex pattern, yet
the validator accepts a payload whose number is empty next to a valid
hash, because the falsy number skips the block-format rules; the claim
requires failure for every non-matching string. -/
theorem c5_counterexample :
    reHexAll "" = false ∧
    validateApiResponse (some (blockPayload (JsVal.str "") (JsVal.str
        "0xaaaaaaaaaaaaaaaaaaaaaaaaaaaaaaaaaaaaaaaaaaaaaaaaaaaaaaaaaaaaaaaa")))
        "Invalid API response" "GENERIC_API" = Except.ok () := by
  constructor
  · decide
  · decide

/-- C10: the validator accepts the single-marker literals for any truthy
value with no format rule applied, and in consequence fetchBlockNumber
returns any truthy transport result unchanged and the client
fetchTransactionHash returns any truthy first transaction entry
unchanged, hex-shaped or not. -/
theorem c10_truthy_marker_accepted (s : String) (em et url : String)
    (trn : Nat → TimedResult JsVal) (d timeout : Nat) (bd : Payload) (rest : List JsVal)
    (hs : s ≠ "") (htr : trn 0 = ⟨d, Except.ok (JsVal.str s)⟩) (hd : d < timeout)
    (hbd : bd.transactions = some (JsVal.str s :: rest)) (hT : 0 < timeout) :
    validateApiResponse (some (payloadNumber (JsVal.str s))) em et = Except.ok () ∧
    validateApiResponse (some (payloadHash (JsVal.str s))) em et = Except.ok () ∧
    fetchBlockNumber trn timeout url = ⟨1, d, Except.ok (JsVal.str s)⟩ ∧
    (clientFetchTransactionHash (some bd) timeout).result = Except.ok (JsVal.str s) := by
  have hss := jsTruthy_str hs
  refine ⟨validate_payloadNumber_ok _ em et hss, validate_payloadHash_ok _ em et hss, ?_, ?_⟩
  · simp [fetchBlockNumber, retryApiRequest, retryFrom, apiRequestWithTimeout, htr, hd,
      validate_payloadNumber_ok _ _ _ hss]
  · simp [clientFetchTransactionHash, hbd, retryApiRequest, retryFrom, apiRequestWithTimeout, hT,
      validate_payloadHash_ok _ _ _ hss]

/-- C10 witness: the concrete truthy non-hex string zzz is accepted and
returned by both operations. -/
theorem c10_witness :
    validateApiResponse (some (payloadNumber (JsVal.str "zzz"))) "m" "RPC" = Except.ok () ∧
    validateApiResponse (some (payloadHash (JsVal.str "zzz"))) "m" "RPC" = Except.ok () ∧
    fetchBlockNumber (fun _ => ⟨1, Except.ok (JsVal.str "zzz")⟩) 5 "node" =
      ⟨1, 1, Except.ok (JsVal.str "zzz")⟩ ∧
    (clientFetchTransactionHash
        (some ⟨none, JsVal.undefined, JsVal.undefined, JsVal.undefined, JsVal.undefined,
          JsVal.undefined, some [JsVal.str "zzz"]⟩) 5).result = Except.ok (JsVal.str "zzz") :=
  c10_truthy_marker_accepted "zzz" "m" "RPC" "node" (fun _ => ⟨1, Except.ok (JsVal.str "zzz")⟩)
    1 5
    ⟨none, JsVal.undefined, JsVal.undefined, JsVal.undefined, JsVal.undefined,
      JsVal.undefined, some [JsVal.str "zzz"]⟩
    [] (by decide) rfl (by decide) rfl (by decide)

/-- One-step unfolding of the retry loop: a successful attempt returns
immediately. -/
theorem retryFrom_ok {α : Type} (action : Nat → TimedResult α) (em et : String)
    (fuel attempts : Nat) (v : α) (hv : (action attempts).result = Except.ok v) :
    retryFrom action em et (fuel + 1) attempts =
      ⟨1, (action attempts).duration, Except.ok v⟩ := by
  simp [retryFrom, hv]

/-- One-step unfolding of the retry loop: the failure that exhausts the
budget is surfaced through handleError. -/
theorem retryFrom_last {α : Type} (action : Nat → TimedResult α) (em et : String)
    (attempts : Nat) (e : JsError) (he : (action attempts).result = Except.error e) :
    retryFrom action em et 1 attempts =
      ⟨1, (action attempts).duration, Except.error (handleError e em et)⟩ := by
  simp [retryFrom, he]

/-- One-step unfolding of the retry loop: a failure with budget remaining
recurses on the next attempt. -/
theorem retryFrom_step {α : Type} (action : Nat → TimedResult α) (em et : String)
    (fuel attempts : Nat) (hfuel : fuel ≠ 0) (e : JsError)
    (he : (action attempts).result = Except.error e) :
    retryFrom action em et (fuel + 1) attempts =
      ⟨(retryFrom action em et fuel (attempts + 1)).invocations + 1,
       (action attempts).duration + (retryFrom action em et fuel (attempts + 1)).duration,
       (retryFrom action em et fuel (attempts + 1)).result⟩ := by
  simp [retryFrom, he, hfuel]

/-- When every invocation of the action fails, the retry loop spends all its
fuel, invoking the action once per fuel unit, and surfaces the failure of
the last invocation through handleError. -/
theorem retryFrom_all_fail {α : Type} (action : Nat → TimedResult α) (err : Nat → JsError)
    (em et : String) (hf : ∀ i, (action i).result = Except.error (err i)) :
    ∀ fuel attempts, 1 ≤ fuel →
      (retryFrom action em et fuel attempts).invocations = fuel ∧
      (retryFrom action em et fuel attempts).result =
        Except.error (handleError (err (attempts + fuel - 1)) em et) := by
  intro fuel
  induction fuel with
  | zero =>
    intro attempts h
    omega
  | succ f ih =>
    intro attempts _
    cases f with
    | zero =>
      rw [retryFrom_last action em et attempts (err attempts) (hf attempts)]
      simp
    | succ f2 =>
      have h2 := ih (attempts + 1) (by omega)
      have hidx : attempts + 1 + (f2 + 1) - 1 = attempts + (f2 + 1 + 1) - 1 := by omega
      rw [hidx] at h2
      rw [retryFrom_step action em et (f2 + 1) attempts (Nat.succ_ne_zero f2)
        (err attempts) (hf attempts)]
      exact ⟨by simp [h2.1], h2.2⟩

/-- C6: an action that fails on every invocation is invoked exactly n times
by retryApiRequest with budget n (no attempt beyond the n-th), and the
final outcome is the failure of the n-th invocation, surfaced through
handleError with its message preserved. -/
theorem c6_retry_exhaustion {α : Type} (action : Nat → TimedResult α) (err : Nat → JsError)
    (n : Nat) (em et : String) (hn : 1 ≤ n)
    (hf : ∀ i, (action i).result = Except.error (err i)) :
    (retryApiRequest action n em et).invocations = n ∧
    (retryApiRequest action n em et).result =
      Except.error (handleError (err (n - 1)) em et) := by
  have h := retryFrom_all_fail action err em et hf n 0 hn
  simpa [retryApiRequest] using h

/-- C6 witness: an always-failing action under a budget of 3 is invoked
exactly 3 times and the third failure surfaces. -/
theorem c6_witness :
    (retryApiRequest (fun i => (⟨1, Except.error (JsError.mk "Error" (toString i))⟩ :
        TimedResult JsVal)) 3 "m" "RPC").invocations = 3 ∧
    (retryApiRequest (fun i => (⟨1, Except.error (JsError.mk "Error" (toString i))⟩ :
        TimedResult JsVal)) 3 "m" "RPC").result =
      Except.error (handleError (JsError.mk "Error" (toString (3 - 1))) "m" "RPC") :=
  c6_retry_exhaustion (fun i => (⟨1, Except.error (JsError.mk "Error" (toString i))⟩ :
    TimedResult JsVal)) (fun i => JsError.mk "Error" (toString i)) 3 "m" "RPC"
    (by decide) (fun _ => rfl)

/-- A success on the attempt after k initial failures short-circuits the
retry loop: the action runs exactly k + 1 times and the success value is
returned. -/
theorem retryFrom_short_circuit {α : Type} (action : Nat → TimedResult α) (em et : String)
    (v : α) :
    ∀ (k fuel attempts : Nat), k < fuel →
      (∀ i, i < k → ∃ e, (action (attempts + i)).result = Except.error e) →
      (action (attempts + k)).result = Except.ok v →
      (retryFrom action em et fuel attempts).invocations = k + 1 ∧
      (retryFrom action em et fuel attempts).result = Except.ok v := by
  intro k
  induction k with
  | zero =>
    intro fuel attempts hk _ hsucc
    cases fuel with
    | zero => omega
    | succ f =>
      rw [Nat.add_zero] at hsucc
      rw [retryFrom_ok action em et f attempts v hsucc]
      simp
  | succ k ih =>
    intro fuel attempts hk hfail hsucc
    cases fuel with
    | zero => omega
    | succ f =>
      obtain ⟨e0, he0⟩ := hfail 0 (by omega)
      rw [Nat.add_zero] at he0
      cases f with
      | zero => omega
      | succ f2 =>
        have hfail2 : ∀ i, i < k → ∃ e, (action (attempts + 1 + i)).result = Except.error e := by
          intro i hi
          have h := hfail (i + 1) (by omega)
          rwa [show attempts + (i + 1) = attempts + 1 + i by omega] at h
        have hsucc2 : (action (attempts + 1 + k)).result = Except.ok v := by
          rwa [show attempts + 1 + k = attempts + (k + 1) by omega]
        have h2 := ih (f2 + 1) (attempts + 1) (by omega) hfail2 hsucc2
        rw [retryFrom_step action em et (f2 + 1) attempts (Nat.succ_ne_zero f2) e0 he0]
        exact ⟨by simp [h2.1], h2.2⟩

/-- C7: an action that fails on its first k invocations and succeeds on
invocation k + 1, with k below the budget n, makes retryApiRequest return
that success value after exactly k + 1 invocations. -/
theorem c7_retry_short_circuit {α : Type} (action : Nat → TimedResult α) (k n : Nat) (v : α)
    (em et : String) (hk : k < n)
    (hfail : ∀ i, i < k → ∃ e, (action i).result = Except.error e)
    (hsucc : (action k).result = Except.ok v) :
    (retryApiRequest action n em et).invocations = k + 1 ∧
    (retryApiRequest action n em et).result = Except.ok v := by
  have h := retryFrom_short_circuit action em et v k n 0 hk
    (by simpa using hfail) (by simpa using hsucc)
  simpa [retryApiRequest] using h

/-- C7 witness: two failures then a success under a budget of 5 yields the
success value after exactly 3 invocations. -/
theorem c7_witness :
    (retryApiRequest (fun i => if i < 2 then (⟨1, Except.error JsError.nonError⟩ :
        TimedResult JsVal) else ⟨1, Except.ok (JsVal.str "v")⟩) 5 "m" "RPC").invocations = 3 ∧
    (retryApiRequest (fun i => if i < 2 then (⟨1, Except.error JsError.nonError⟩ :
        TimedResult JsVal) else ⟨1, Except.ok (JsVal.str "v")⟩) 5 "m" "RPC").result =
      Except.ok (JsVal.str "v") :=
  c7_retry_short_circuit (fun i => if i < 2 then (⟨1, Except.error JsError.nonError⟩ :
      TimedResult JsVal) else ⟨1, Except.ok (JsVal.str "v")⟩) 2 5 (JsVal.str "v") "m" "RPC"
    (by decide)
    (fun i hi => ⟨JsError.nonError, by interval_cases i <;> rfl⟩)
    rfl

theorem errorTypeName_RPC : errorTypeName "RPC" = "RPCError" := rfl

/-- C1 (amended): each operation is composed as the retry executor applied
around the timeout executor applied around the underlying action, with a
retry budget of 2, followed by response validation — so each individual
attempt gets its own timeout budget rather than one budget bounding the
whole loop.  With a transport that fails on attempt 0 and succeeds on
attempt 1, each attempt under the budget but their total beyond it, the
three transport-backed operations succeed after 2 invocations; the
spec-stated composition, with the timer around the whole retry loop,
would instead time out on the same transport.  fetchTransactionHash
applies the same two executors around the immediately-resolving access of
transactions[0] instead of a transport call. -/
theorem c1_retry_around_timeout
    (timeout d0 d1 : Nat) (e : JsError) (url bn th : String)
    (trn : Nat → TimedResult JsVal) (trp trq : Nat → TimedResult (Option Payload))
    (v : JsVal) (bdv tdv : Option Payload) (bd2 : Payload) (h0 : JsVal) (rest : List JsVal)
    (hb0 : d0 < timeout) (hb1 : d1 < timeout) (hsum : timeout ≤ d0 + d1)
    (hn0 : trn 0 = ⟨d0, Except.error e⟩) (hn1 : trn 1 = ⟨d1, Except.ok v⟩)
    (hv : jsTruthy v = true)
    (hp0 : trp 0 = ⟨d0, Except.error e⟩) (hp1 : trp 1 = ⟨d1, Except.ok bdv⟩)
    (hbdv : validateApiResponse bdv "Failed to validate block details response" "RPC" =
      Except.ok ())
    (hq0 : trq 0 = ⟨d0, Except.error e⟩) (hq1 : trq 1 = ⟨d1, Except.ok tdv⟩)
    (htdv : validateApiResponse tdv "Failed to validate transaction details response" "RPC" =
      Except.ok ())
    (hbd2 : bd2.transactions = some (h0 :: rest)) (hh : jsTruthy h0 = true)
    (hT : 0 < timeout) :
    fetchBlockNumber trn timeout url = ⟨2, d0 + d1, Except.ok v⟩ ∧
    fetchBlockDetails trp timeout bn = ⟨2, d0 + d1, Except.ok bdv⟩ ∧
    fetchTransactionDetails trq timeout th = ⟨2, d0 + d1, Except.ok tdv⟩ ∧
    (clientFetchTransactionHash (some bd2) timeout).result = Except.ok h0 ∧
    fetchBlockNumberSpecOrder trn timeout url =
      ⟨2, timeout, Except.error (JsError.mk "RPCError" "API request timed out")⟩ := by
  have hnl : ¬ (d0 + d1 < timeout) := by omega
  refine ⟨?_, ?_, ?_, ?_, ?_⟩
  · simp [fetchBlockNumber, retryApiRequest, retryFrom, apiRequestWithTimeout, hn0, hn1,
      hb0, hb1, validate_payloadNumber_ok _ _ _ hv]
  · simp [fetchBlockDetails, retryApiRequest, retryFrom, apiRequestWithTimeout, hp0, hp1,
      hb0, hb1, hbdv]
  · simp [fetchTransactionDetails, retryApiRequest, retryFrom, apiRequestWithTimeout, hq0, hq1,
      hb0, hb1, htdv]
  · simp [clientFetchTransactionHash, hbd2, retryApiRequest, retryFrom, apiRequestWithTimeout,
      hT, validate_payloadHash_ok _ _ _ hh]
  · simp [fetchBlockNumberSpecOrder, retryApiRequest, retryFrom, apiRequestWithTimeout, hn0, hn1,
      hnl, handleError, errorTypeName_RPC]

/-- C1 witness: durations 8 and 8 under a 10 ms budget, totalling 16 beyond
it, at concrete transports and values. -/
theorem c1_witness :
    fetchBlockNumber (fun i => if i = 0 then ⟨8, Except.error (JsError.mk "Error" "reset")⟩
        else ⟨8, Except.ok (JsVal.str "0x10")⟩) 10 "node" =
      ⟨2, 8 + 8, Except.ok (JsVal.str "0x10")⟩ ∧
    fetchBlockDetails (fun i => if i = 0 then ⟨8, Except.error (JsError.mk "Error" "reset")⟩
        else ⟨8, Except.ok (some (payloadNumber (JsVal.str "0x10")))⟩) 10 "0x10" =
      ⟨2, 8 + 8, Except.ok (some (payloadNumber (JsVal.str "0x10")))⟩ ∧
    fetchTransactionDetails (fun i => if i = 0 then ⟨8, Except.error (JsError.mk "Error" "reset")⟩
        else ⟨8, Except.ok (some (payloadNumber (JsVal.str "0x10")))⟩) 10 "0xaa" =
      ⟨2, 8 + 8, Except.ok (some (payloadNumber (JsVal.str "0x10")))⟩ ∧
    (clientFetchTransactionHash
        (some ⟨none, JsVal.undefined, JsVal.undefined, JsVal.undefined, JsVal.undefined,
          JsVal.undefined, some [JsVal.str "0xaa"]⟩) 10).result = Except.ok (JsVal.str "0xaa") ∧
    fetchBlockNumberSpecOrder (fun i => if i = 0 then ⟨8, Except.error (JsError.mk "Error" "reset")⟩
        else ⟨8, Except.ok (JsVal.str "0x10")⟩) 10 "node" =
      ⟨2, 10, Except.error (JsError.mk "RPCError" "API request timed out")⟩ :=
  c1_retry_around_timeout 10 8 8 (JsError.mk "Error" "reset") "node" "0x10" "0xaa"
    (fun i => if i = 0 then ⟨8, Except.error (JsError.mk "Error" "reset")⟩
      else ⟨8, Except.ok (JsVal.str "0x10")⟩)
    (fun i => if i = 0 then ⟨8, Except.error (JsError.mk "Error" "reset")⟩
      else ⟨8, Except.ok (some (payloadNumber (JsVal.str "0x10")))⟩)
    (fun i => if i = 0 then ⟨8, Except.error (JsError.mk "Error" "reset")⟩
      else ⟨8, Except.ok (some (payloadNumber (JsVal.str "0x10")))⟩)
    (JsVal.str "0x10") (some (payloadNumber (JsVal.str "0x10")))
    (some (payloadNumber (JsVal.str "0x10")))
    ⟨none, JsVal.undefined, JsVal.undefined, JsVal.undefined, JsVal.undefined,
      JsVal.undefined, some [JsVal.str "0xaa"]⟩
    (JsVal.str "0xaa") []
    (by decide) (by decide) (by decide) rfl rfl (by decide) rfl rfl (by decide)
    rfl rfl (by decide) rfl (by decide) (by decide)

/-- C1 counterexample: the claim states the code composes the timer around
the whole retry loop, which on this transport (attempt 0 fails after
8 ms, attempt 1 succeeds after 8 ms, 10 ms budget) would have to time
out; the code operation succeeds, because the code in fact runs the retry
executor outermost, giving each attempt its own timer. -/
theorem c1_counterexample :
    (fetchBlockNumber (fun i => if i = 0 then ⟨8, Except.error (JsError.mk "Error" "reset")⟩
        else ⟨8, Except.ok (JsVal.str "0x10")⟩) 10 "node").result =
      Except.ok (JsVal.str "0x10") ∧
    (fetchBlockNumberSpecOrder (fun i => if i = 0 then ⟨8, Except.error (JsError.mk "Error" "reset")⟩
        else ⟨8, Except.ok (JsVal.str "0x10")⟩) 10 "node").result =
      Except.error (JsError.mk "RPCError" "API request timed out") := by
  constructor
  · decide
  · decide

/-- C2: when the stored block details lack transactions, the builder polls a
fresh observation on each check with a RETRY_DELAY (2000 ms) sleep
between checks.  If the first two observations are empty and the third
carries a transaction, the call succeeds after exactly 2 sleeps,
returning that first transaction entry; if every observation is empty it
fails after exactly 3 sleeps (MAX_RETRIES = 3) with the Error
"Block details or transactions are not available after maximum retries". -/
theorem c2_builder_polls_transactions :
    (∀ (view : Nat → Option Payload) (bd2 : Payload) (h0 : JsVal) (rest : List JsVal)
        (timeout : Nat),
      blockDetailsHasNoTx (view 0) = true → blockDetailsHasNoTx (view 1) = true →
      view 2 = some bd2 → bd2.transactions = some (h0 :: rest) → jsTruthy h0 = true →
      0 < timeout →
      builderFetchTransactionHash view timeout = (2, Except.ok h0)) ∧
    (∀ (view : Nat → Option Payload) (timeout : Nat),
      (∀ i, blockDetailsHasNoTx (view i) = true) →
      builderFetchTransactionHash view timeout =
        (3, Except.error
          (JsError.mk "Error" "Block details or transactions are not available after maximum retries"))) ∧
    RETRY_DELAY = 2000 ∧ MAX_RETRIES = 3 := by
  refine ⟨?_, ?_, rfl, rfl⟩
  · intro view bd2 h0 rest timeout h0v h1v h2v hbd2 hh hT
    have hnv2 : blockDetailsHasNoTx (some bd2) = false := by
      simp [blockDetailsHasNoTx, hbd2]
    simp [builderFetchTransactionHash, MAX_RETRIES, pollFrom, h0v, h1v, hnv2, h2v,
      clientFetchTransactionHash, hbd2, retryApiRequest, retryFrom, apiRequestWithTimeout,
      hT, validate_payloadHash_ok _ _ _ hh]
  · intro view timeout hall
    simp [builderFetchTransactionHash, MAX_RETRIES, pollFrom, hall 0, hall 1, hall 2, hall 3]

/-- C2 witness: a concrete view that is empty twice and populated on the
third observation, and a concrete view that never carries transactions. -/
theorem c2_witness :
    builderFetchTransactionHash
        (fun i => if i < 2
          then some ⟨none, JsVal.undefined, JsVal.undefined, JsVal.undefined, JsVal.undefined,
            JsVal.undefined, some []⟩
          else some ⟨none, JsVal.undefined, JsVal.undefined, JsVal.undefined, JsVal.undefined,
            JsVal.undefined, some [JsVal.str "0xaa"]⟩) 5 = (2, Except.ok (JsVal.str "0xaa")) ∧
    builderFetchTransactionHash
        (fun _ => some ⟨none, JsVal.undefined, JsVal.undefined, JsVal.undefined, JsVal.undefined,
          JsVal.undefined, some []⟩) 5 =
      (3, Except.error
        (JsError.mk "Error" "Block details or transactions are not available after maximum retries")) :=
  ⟨c2_builder_polls_transactions.1
      (fun i => if i < 2
        then some ⟨none, JsVal.undefined, JsVal.undefined, JsVal.undefined, JsVal.undefined,
          JsVal.undefined, some []⟩
        else some ⟨none, JsVal.undefined, JsVal.undefined, JsVal.undefined, JsVal.undefined,
          JsVal.undefined, some [JsVal.str "0xaa"]⟩)
      ⟨none, JsVal.undefined, JsVal.undefined, JsVal.undefined, JsVal.undefined,
        JsVal.undefined, some [JsVal.str "0xaa"]⟩
      (JsVal.str "0xaa") [] 5 rfl rfl rfl rfl (by decide) (by decide),
   c2_builder_polls_transactions.2.1
      (fun _ => some ⟨none, JsVal.undefined, JsVal.undefined, JsVal.undefined, JsVal.undefined,
        JsVal.undefined, some []⟩) 5 (fun _ => rfl)⟩

end MAssign
